import Mathlib

/-!
Verification of the order-lifecycle and access-control core of the
`setaside-be` backend (an order-pickup REST API).

The definitions below are a shallow embedding of the TypeScript source:

* `src/src/common/enums/index.ts` — user roles, order statuses and the
  status-transition table (the file has two snapshots: a 5-stage flow with a
  terminal `completed` state, and a simplified 4-status flow that also allows
  `pending → ready`; a third snapshot, the strict 4-stage table, lives in
  `src/unnamed/part_008`).  All three are embedded, each under its own name.
* `src/unnamed/part_001` — `OrdersService` (create, updateStatus, delete,
  validateOrderAccess).
* `src/src/modules/order-items/order-items.repository.ts` —
  `OrderItemsService` (create/merge, update, delete) together with its
  repository.
* `src/src/modules/auth/auth.service.ts` — `AuthService.register` / `login`.

Persistence is modelled as explicit state (`DB`, `AuthDB`) passed through each
operation; NestJS exceptions become an `ApiError` sum returned through
`Except`.  The database's generated column
`subtotal = quantity * unit_price` (schema in `src/src/main.ts`) is applied by
the embedded repository on every item insert/update, as the schema declares.
Prices are rationals; id generation is a counter standing in for UUIDs;
token signing, password hashing (bcrypt) and timestamps are collaborators out
of scope and are stubbed by injective placeholders that the claims do not
inspect.
-/

namespace SetAside

/-- User roles, from `src/src/common/enums/index.ts`. -/
inductive UserRole where
  | customer
  | cashier
  | admin
deriving DecidableEq, Repr

/-- Order statuses of the simplified 4-status snapshot of
`src/src/common/enums/index.ts` (lines 57-62): pending, preparing, ready,
picked_up. -/
inductive OrderStatus where
  | pending
  | preparing
  | ready
  | picked_up
deriving DecidableEq, Repr

/-- Transition table of the simplified snapshot
(`src/src/common/enums/index.ts` lines 68-73): `pending` may go to
`preparing` or directly to `ready`; `picked_up` has no successors. -/
def ORDER_STATUS_TRANSITIONS : OrderStatus → List OrderStatus
  | OrderStatus.pending => [OrderStatus.preparing, OrderStatus.ready]
  | OrderStatus.preparing => [OrderStatus.ready]
  | OrderStatus.ready => [OrderStatus.picked_up]
  | OrderStatus.picked_up => []

/-- `isValidStatusTransition` of the simplified snapshot
(`src/src/common/enums/index.ts` lines 78-83): membership of the requested
status in the current status's row of the table. -/
def isValidStatusTransition (currentStatus newStatus : OrderStatus) : Bool :=
  (ORDER_STATUS_TRANSITIONS currentStatus).contains newStatus

/-- Order statuses of the 5-stage snapshot of
`src/src/common/enums/index.ts` (lines 14-20): pending, preparing, ready,
pickedup, completed. -/
inductive OrderStatus5 where
  | pending
  | preparing
  | ready
  | pickedup
  | completed
deriving DecidableEq, Repr

/-- Transition table of the 5-stage snapshot
(`src/src/common/enums/index.ts` lines 26-32). -/
def ORDER_STATUS_TRANSITIONS5 : OrderStatus5 → List OrderStatus5
  | OrderStatus5.pending => [OrderStatus5.preparing]
  | OrderStatus5.preparing => [OrderStatus5.ready]
  | OrderStatus5.ready => [OrderStatus5.pickedup]
  | OrderStatus5.pickedup => [OrderStatus5.completed]
  | OrderStatus5.completed => []

/-- `isValidStatusTransition` of the 5-stage snapshot
(`src/src/common/enums/index.ts` lines 37-42). -/
def isValidStatusTransition5 (currentStatus newStatus : OrderStatus5) : Bool :=
  (ORDER_STATUS_TRANSITIONS5 currentStatus).contains newStatus

/-- Transition table of the strict 4-stage snapshot
(`src/unnamed/part_008` lines 24-29): exactly the canonical three pairs. -/
def ORDER_STATUS_TRANSITIONS_strict : OrderStatus → List OrderStatus
  | OrderStatus.pending => [OrderStatus.preparing]
  | OrderStatus.preparing => [OrderStatus.ready]
  | OrderStatus.ready => [OrderStatus.picked_up]
  | OrderStatus.picked_up => []

/-- `isValidStatusTransition` of the strict 4-stage snapshot
(`src/unnamed/part_008` lines 34-39). -/
def isValidStatusTransition_strict (currentStatus newStatus : OrderStatus) : Bool :=
  (ORDER_STATUS_TRANSITIONS_strict currentStatus).contains newStatus

/-- The strict snapshot does match the canonical three-pair table (context
for C1; the claim's cited file is the one with the other two variants). -/
theorem isValidStatusTransition_strict_table (c n : OrderStatus) :
    isValidStatusTransition_strict c n = true ↔
      (c = OrderStatus.pending ∧ n = OrderStatus.preparing) ∨
      (c = OrderStatus.preparing ∧ n = OrderStatus.ready) ∨
      (c = OrderStatus.ready ∧ n = OrderStatus.picked_up) := by
  cases c <;> cases n <;> decide

/-- C1 counterexample: the claim says `isValidStatusTransition` returns
`false` for the pair `(pending, ready)`, but the simplified snapshot of
`src/src/common/enums/index.ts` — the 4-status variant whose status names the
claim uses — returns `true` for it, because its table lets `pending` skip
directly to `ready`. -/
theorem c1_isValidStatusTransition_allows_pending_ready :
    isValidStatusTransition OrderStatus.pending OrderStatus.ready = true := by
  decide

/-- C1 amended: `isValidStatusTransition` (simplified snapshot of
`src/src/common/enums/index.ts`) returns `true` exactly for the four pairs
`(pending, preparing)`, `(pending, ready)`, `(preparing, ready)`,
`(ready, picked_up)`, and `false` for every other pair; in particular every
pair whose current status is `picked_up` yields `false` (terminal). -/
theorem c1_isValidStatusTransition_exact_table (c n : OrderStatus) :
    isValidStatusTransition c n = true ↔
      (c = OrderStatus.pending ∧ n = OrderStatus.preparing) ∨
      (c = OrderStatus.pending ∧ n = OrderStatus.ready) ∨
      (c = OrderStatus.preparing ∧ n = OrderStatus.ready) ∨
      (c = OrderStatus.ready ∧ n = OrderStatus.picked_up) := by
  cases c <;> cases n <;> decide

/-- NestJS exceptions thrown by the embedded services, as a sum.  The spec's
INVALID_STATE and INVALID_TRANSITION kinds are both `BadRequestException` in
the source and are told apart by their message. -/
inductive ApiError where
  | notFound (msg : String)
  | forbidden (msg : String)
  | badRequest (msg : String)
  | conflict (msg : String)
  | unauthorized (msg : String)
deriving DecidableEq, Repr

/-- An authenticated actor (the `AuthenticatedUser` attached to a request). -/
structure AuthenticatedUser where
  id : String
  email : String
  role : UserRole
deriving DecidableEq, Repr

/-- Order row (`orders` table / `Order` entity).  Timestamps are omitted. -/
structure Order where
  id : String
  customer_id : String
  status : OrderStatus
  total_amount : Rat
  notes : Option String
  pickup_time : Option String
  prepared_by : Option String
deriving DecidableEq, Repr

/-- Product row (`products` table / `Product` entity), restricted to the
fields the order flow reads.  `stock_quantity` is `Option Nat` because the
item service explicitly handles a null value ("unlimited"). -/
structure Product where
  id : String
  price : Rat
  is_available : Bool
  stock_quantity : Option Nat
deriving DecidableEq, Repr

/-- Order-item row (`order_items` table / `OrderItem` entity).  `subtotal`
is a generated column `quantity * unit_price` in the schema; the embedded
repository recomputes it on every insert/update. -/
structure OrderItem where
  id : String
  order_id : String
  product_id : String
  quantity : Nat
  unit_price : Rat
  subtotal : Rat
  special_instructions : Option String
deriving DecidableEq, Repr

/-- The relational store seen by the order flow.  `nextId` drives generated
row ids (standing in for database UUIDs). -/
structure DB where
  orders : List Order
  products : List Product
  items : List OrderItem
  nextId : Nat
deriving DecidableEq, Repr

/-- Fresh row id produced by the store for an insert. -/
def freshId (db : DB) : String :=
  String.append "gen" (toString db.nextId)

/-- `OrdersRepository.findById`: single row with matching id, or null. -/
def findOrderById (db : DB) (id : String) : Option Order :=
  db.orders.find? (fun o => decide (o.id = id))

/-- `OrderItemsRepository.findById`. -/
def findItemById (items : List OrderItem) (id : String) : Option OrderItem :=
  items.find? (fun it => decide (it.id = id))

/-- `OrderItemsRepository.findByOrderAndProduct`: the row of a given order
for a given product, if any. -/
def findItemByOrderAndProduct (items : List OrderItem) (orderId productId : String) :
    Option OrderItem :=
  items.find? (fun it => decide (it.order_id = orderId ∧ it.product_id = productId))

/-- Items of one order (`OrderItemsRepository.findByOrderId`, and the
`items:` join of `findByIdWithDetails`). -/
def itemsOfOrder (db : DB) (orderId : String) : List OrderItem :=
  db.items.filter (fun it => decide (it.order_id = orderId))

/-- `ProductsService.findById` (products.service.ts lines 65-73): `NotFound`
when the row is absent. -/
def productsFindById (db : DB) (id : String) : Except ApiError Product :=
  match db.products.find? (fun p => decide (p.id = id)) with
  | none => Except.error (ApiError.notFound "Product not found")
  | some p => Except.ok p

/-- `OrdersService.validateOrderAccess` (src/unnamed/part_001 lines
410-432): not-found, then customer-ownership, then the optional pending
requirement. -/
def validateOrderAccess (db : DB) (orderId : String) (user : AuthenticatedUser)
    (requirePending : Bool) : Except ApiError Order :=
  match findOrderById db orderId with
  | none => Except.error (ApiError.notFound "Order not found")
  | some order =>
    if user.role = UserRole.customer ∧ order.customer_id ≠ user.id then
      Except.error (ApiError.forbidden "You can only access your own orders")
    else if requirePending ∧ order.status ≠ OrderStatus.pending then
      Except.error (ApiError.badRequest "This action is only allowed for pending orders")
    else
      Except.ok order

/-- Row update used by `OrdersRepository.update` / `updateStatus`: apply `f`
to the row with the given id. -/
def updateOrderRow (orders : List Order) (id : String) (f : Order → Order) : List Order :=
  orders.map (fun o => if o.id = id then f o else o)

/-- `OrdersService.updateStatus` (src/unnamed/part_001 lines 350-381).  The
transition check precedes the staff-only check, exactly as in the source; the
source's interpolated message is abbreviated to its constant prefix.
`OrdersRepository.updateStatus` sets `prepared_by` only when the caller id is
truthy (a nonempty string). -/
def ordersUpdateStatus (db : DB) (id : String) (newStatus : OrderStatus)
    (user : AuthenticatedUser) : Except ApiError (DB × Order) :=
  match findOrderById db id with
  | none => Except.error (ApiError.notFound "Order not found")
  | some order =>
    if ¬ isValidStatusTransition order.status newStatus then
      Except.error (ApiError.badRequest "Invalid status transition")
    else if user.role = UserRole.customer then
      Except.error (ApiError.forbidden "Only staff can update order status")
    else
      let f : Order → Order := fun o =>
        { o with
          status := newStatus
          prepared_by := if user.id = "" then o.prepared_by else some user.id }
      Except.ok ({ db with orders := updateOrderRow db.orders id f }, f order)

/-- `OrdersService.delete` (src/unnamed/part_001 lines 386-405): not-found,
customer ownership, then the actor-independent pending requirement; on
success the row is removed (items cascade via the schema's foreign key). -/
def ordersDelete (db : DB) (id : String) (user : AuthenticatedUser) :
    Except ApiError DB :=
  match findOrderById db id with
  | none => Except.error (ApiError.notFound "Order not found")
  | some order =>
    if user.role = UserRole.customer ∧ order.customer_id ≠ user.id then
      Except.error (ApiError.forbidden "You can only delete your own orders")
    else if order.status ≠ OrderStatus.pending then
      Except.error (ApiError.badRequest "Only pending orders can be deleted")
    else
      Except.ok
        { db with
          orders := db.orders.filter (fun o => decide (o.id ≠ id))
          items := db.items.filter (fun it => decide (it.order_id ≠ id)) }

/-- Body of `POST /orders/:orderId/items` (`CreateOrderItemDto`). -/
structure CreateOrderItemDto where
  product_id : String
  quantity : Nat
  special_instructions : Option String
deriving DecidableEq, Repr

/-- Body of `PATCH /orders/:orderId/items/:itemId` (`UpdateOrderItemDto`);
`none` means the field is absent from the request. -/
structure UpdateOrderItemDto where
  quantity : Option Nat
  special_instructions : Option String
deriving DecidableEq, Repr

/-- JavaScript `a || b` on an optional string: `undefined` and the empty
string are falsy, so only a present nonempty value replaces `b`. -/
def jsStringOr (newVal oldVal : Option String) : Option String :=
  match newVal with
  | some s => if s = "" then oldVal else some s
  | none => oldVal

/-- Stock check of `OrderItemsService.create`:
`(product.stock_quantity ?? Infinity) < quantity` — a null stock is
unlimited, so it never triggers. -/
def stockInsufficientOnCreate (stock : Option Nat) (q : Nat) : Bool :=
  match stock with
  | some s => decide (s < q)
  | none => false

/-- Stock check of `OrderItemsService.update`:
`product.stock_quantity < quantity` with no null handling — JavaScript's
relational comparison coerces null to 0, so a null stock fails for every
positive quantity. -/
def stockInsufficientOnUpdate (stock : Option Nat) (q : Nat) : Bool :=
  match stock with
  | some s => decide (s < q)
  | none => decide (0 < q)

/-- JavaScript truthiness of `updateDto.quantity`: present and nonzero. -/
def qtyTruthy (q : Option Nat) : Bool :=
  match q with
  | some n => decide (n ≠ 0)
  | none => false

/-- Row update used by `OrderItemsRepository.update`, followed by the
schema's generated column: after `f`, `subtotal` is recomputed as
`quantity * unit_price`. -/
def updateItemRow (items : List OrderItem) (id : String) (f : OrderItem → OrderItem) :
    List OrderItem :=
  items.map (fun it =>
    if it.id = id then
      let it' := f it
      { it' with subtotal := (it'.quantity : Rat) * it'.unit_price }
    else it)

/-- The merged row written by the duplicate-product branch of
`OrderItemsService.create` (lines 245-259): quantity is summed, subtotal is
recomputed from the existing (pinned) unit price, and special instructions
follow `createDto.special_instructions || existingItem.special_instructions`. -/
def mergeItem (existingItem : OrderItem) (dto : CreateOrderItemDto) : OrderItem :=
  let newQuantity := existingItem.quantity + dto.quantity
  { existingItem with
    quantity := newQuantity
    subtotal := (newQuantity : Rat) * existingItem.unit_price
    special_instructions :=
      jsStringOr dto.special_instructions existingItem.special_instructions }

/-- `OrderItemsService.create` after its access check (lines 226-273):
product lookup, availability, create-path stock check, then either merge
into the existing (order, product) row or insert a fresh row priced at the
product's current price. -/
def orderItemsCreateChecked (db : DB) (orderId : String) (dto : CreateOrderItemDto) :
    Except ApiError (DB × OrderItem) :=
  match productsFindById db dto.product_id with
  | Except.error e => Except.error e
  | Except.ok product =>
    if ¬ product.is_available then
      Except.error (ApiError.badRequest "Product is not available")
    else if stockInsufficientOnCreate product.stock_quantity dto.quantity then
      Except.error (ApiError.badRequest "Insufficient stock")
    else
      match findItemByOrderAndProduct db.items orderId dto.product_id with
      | some existingItem =>
        Except.ok
          ({ db with items := updateItemRow db.items existingItem.id (fun _ => mergeItem existingItem dto) },
           mergeItem existingItem dto)
      | none =>
        let newItem : OrderItem :=
          { id := freshId db
            order_id := orderId
            product_id := dto.product_id
            quantity := dto.quantity
            unit_price := product.price
            subtotal := (dto.quantity : Rat) * product.price
            special_instructions := dto.special_instructions }
        Except.ok ({ db with items := db.items ++ [newItem], nextId := db.nextId + 1 }, newItem)

/-- `OrderItemsService.create` (lines 215-273): unless `skipValidation`,
requires `validateOrderAccess` with `requirePending = true` first. -/
def orderItemsCreate (db : DB) (orderId : String) (dto : CreateOrderItemDto)
    (user : AuthenticatedUser) (skipValidation : Bool) :
    Except ApiError (DB × OrderItem) :=
  if skipValidation then
    orderItemsCreateChecked db orderId dto
  else
    match validateOrderAccess db orderId user true with
    | Except.error e => Except.error e
    | Except.ok _ => orderItemsCreateChecked db orderId dto

/-- Stock validation of `OrderItemsService.update` (lines 298-304), reached
only when the requested quantity is truthy. -/
def checkStockForUpdate (db : DB) (orderItem : OrderItem) (dto : UpdateOrderItemDto) :
    Except ApiError Unit :=
  match dto.quantity with
  | some q =>
    if qtyTruthy dto.quantity then
      match productsFindById db orderItem.product_id with
      | Except.error e => Except.error e
      | Except.ok product =>
        if stockInsufficientOnUpdate product.stock_quantity q then
          Except.error (ApiError.badRequest "Insufficient stock")
        else Except.ok ()
    else Except.ok ()
  | none => Except.ok ()

/-- The patch applied by `OrderItemsService.update` (lines 306-312): the
spread `{...updateDto}` copies the present fields; the generated column then
recomputes `subtotal` from the (pinned) unit price. -/
def applyItemUpdate (orderItem : OrderItem) (dto : UpdateOrderItemDto) : OrderItem :=
  let withQty :=
    match dto.quantity with
    | some q => { orderItem with quantity := q }
    | none => orderItem
  match dto.special_instructions with
  | some s => { withQty with special_instructions := some s }
  | none => withQty

/-- `OrderItemsService.update` (lines 278-316): pending-window access check,
item lookup, order-membership check, stock check, then the row update. -/
def orderItemsUpdate (db : DB) (orderId itemId : String) (dto : UpdateOrderItemDto)
    (user : AuthenticatedUser) : Except ApiError (DB × OrderItem) :=
  match validateOrderAccess db orderId user true with
  | Except.error e => Except.error e
  | Except.ok _ =>
    match findItemById db.items itemId with
    | none => Except.error (ApiError.notFound "Order item not found")
    | some orderItem =>
      if orderItem.order_id ≠ orderId then
        Except.error (ApiError.badRequest "Order item does not belong to this order")
      else
        match checkStockForUpdate db orderItem dto with
        | Except.error e => Except.error e
        | Except.ok _ =>
          let updated := applyItemUpdate orderItem dto
          let updated := { updated with subtotal := (updated.quantity : Rat) * updated.unit_price }
          Except.ok
            ({ db with items := updateItemRow db.items itemId (fun it => applyItemUpdate it dto) },
             updated)

/-- `OrderItemsService.delete` (lines 321-342): pending-window access check,
item lookup, order-membership check, then row removal. -/
def orderItemsDelete (db : DB) (orderId itemId : String) (user : AuthenticatedUser) :
    Except ApiError DB :=
  match validateOrderAccess db orderId user true with
  | Except.error e => Except.error e
  | Except.ok _ =>
    match findItemById db.items itemId with
    | none => Except.error (ApiError.notFound "Order item not found")
    | some orderItem =>
      if orderItem.order_id ≠ orderId then
        Except.error (ApiError.badRequest "Order item does not belong to this order")
      else
        Except.ok { db with items := db.items.filter (fun it => decide (it.id ≠ itemId)) }

/-- Body of `POST /orders` (`CreateOrderDto`); an absent `items` array is
the empty list (the source guards on `items && items.length > 0`, which the
empty fold matches). -/
structure CreateOrderDto where
  notes : Option String
  pickup_time : Option String
  items : List CreateOrderItemDto
deriving DecidableEq, Repr

/-- The item loop of `OrdersService.create` (lines 238-247): each item is
added with `skipValidation = true`; a failing add is caught and logged and
the loop continues with the state it had before that item. -/
def addItemsSkippingFailures : DB → String → AuthenticatedUser →
    List CreateOrderItemDto → DB
  | db, _, _, [] => db
  | db, orderId, user, dto :: rest =>
    match orderItemsCreate db orderId dto user true with
    | Except.ok (db', _) => addItemsSkippingFailures db' orderId user rest
    | Except.error _ => addItemsSkippingFailures db orderId user rest

/-- The row inserted by `OrdersRepository.create` (orders.repository.ts
lines 79-102): `status = pending`, `total_amount = 0`, the caller as
customer. -/
def newOrderRow (db : DB) (dto : CreateOrderDto) (user : AuthenticatedUser) : Order :=
  { id := freshId db
    customer_id := user.id
    status := OrderStatus.pending
    total_amount := 0
    notes := dto.notes
    pickup_time := dto.pickup_time
    prepared_by := none }

/-- The store right after `OrdersRepository.create` returns. -/
def afterOrderInsert (db : DB) (dto : CreateOrderDto) (user : AuthenticatedUser) : DB :=
  { db with orders := db.orders ++ [newOrderRow db dto user], nextId := db.nextId + 1 }

/-- `OrdersService.create` (lines 227-252): insert the order row, then run
the item loop; the created order row is returned (joined with its items by
`findByIdWithDetails`, i.e. `itemsOfOrder` on the final store). -/
def ordersCreate (db : DB) (dto : CreateOrderDto) (user : AuthenticatedUser) :
    DB × Order :=
  (addItemsSkippingFailures (afterOrderInsert db dto user) (freshId db) user dto.items,
   newOrderRow db dto user)

/-- User row (`users` table / `User` entity), restricted to the fields the
auth flow reads. -/
structure User where
  id : String
  email : String
  password_hash : String
  full_name : String
  phone : Option String
  role : UserRole
  is_active : Bool
deriving DecidableEq, Repr

/-- Body of `POST /auth/register` (`RegisterDto`, src/unnamed/part_002 lines
17-68).  The DTO accepts an optional `role` field, which the service
ignores. -/
structure RegisterDto where
  email : String
  password : String
  full_name : String
  phone : Option String
  role : Option UserRole
deriving DecidableEq, Repr

/-- Body of `POST /auth/login` (`LoginDto`). -/
structure LoginDto where
  email : String
  password : String
deriving DecidableEq, Repr

/-- The claims signed into the access token (`JwtPayload`); signing itself
is a collaborator out of scope, so the response carries the payload. -/
structure JwtPayload where
  sub : String
  email : String
  role : UserRole
deriving DecidableEq, Repr

/-- The `user` object of `AuthResponseDto`. -/
structure AuthUserView where
  id : String
  email : String
  full_name : String
  role : UserRole
deriving DecidableEq, Repr

/-- `AuthResponseDto` (token expiry arithmetic omitted as out of scope). -/
structure AuthResponseDto where
  access_token : JwtPayload
  token_type : String
  user : AuthUserView
deriving DecidableEq, Repr

/-- The users store seen by the auth flow. -/
structure AuthDB where
  users : List User
  nextUserId : Nat
deriving DecidableEq, Repr

/-- Stand-in for the bcrypt hash (a collaborator out of scope): an injective
tagging of the password, which is all `bcrypt.compare` needs. -/
def hashPassword (password : String) : String :=
  String.append "bcrypt$" password

/-- Stand-in for `bcrypt.compare`. -/
def passwordMatches (password hash : String) : Bool :=
  decide (hash = hashPassword password)

/-- `AuthRepository.emailExists`; the repository lowercases the email, which
the embedding leaves to the caller (no claim exercises case folding). -/
def emailExists (db : AuthDB) (email : String) : Bool :=
  db.users.any (fun u => decide (u.email = email))

/-- `AuthRepository.findByEmail`. -/
def findUserByEmail (db : AuthDB) (email : String) : Option User :=
  db.users.find? (fun u => decide (u.email = email))

/-- `AuthService.generateAuthResponse` (auth.service.ts lines 118-139). -/
def generateAuthResponse (user : User) : AuthResponseDto :=
  { access_token := { sub := user.id, email := user.email, role := user.role }
    token_type := "Bearer"
    user :=
      { id := user.id
        email := user.email
        full_name := user.full_name
        role := user.role } }

/-- `AuthService.register` (auth.service.ts lines 37-62): duplicate-email
conflict, then `authRepository.create` with `role: UserRole.CUSTOMER` forced
regardless of the DTO's `role` field. -/
def register (db : AuthDB) (dto : RegisterDto) :
    Except ApiError (AuthDB × AuthResponseDto) :=
  if emailExists db dto.email then
    Except.error (ApiError.conflict "Email already registered")
  else
    let user : User :=
      { id := String.append "u" (toString db.nextUserId)
        email := dto.email
        password_hash := hashPassword dto.password
        full_name := dto.full_name
        phone := dto.phone
        role := UserRole.customer
        is_active := true }
    Except.ok
      ({ users := db.users ++ [user], nextUserId := db.nextUserId + 1 },
       generateAuthResponse user)

/-- `AuthService.login` (auth.service.ts lines 67-92): unknown email and
wrong password raise the same `UnauthorizedException` with the same message;
a deactivated account raises a distinct message in between. -/
def login (db : AuthDB) (dto : LoginDto) : Except ApiError AuthResponseDto :=
  match findUserByEmail db dto.email with
  | none => Except.error (ApiError.unauthorized "Invalid email or password")
  | some user =>
    if ¬ user.is_active then
      Except.error (ApiError.unauthorized "Account is deactivated")
    else if ¬ passwordMatches dto.password user.password_hash then
      Except.error (ApiError.unauthorized "Invalid email or password")
    else
      Except.ok (generateAuthResponse user)

deriving instance DecidableEq for Except

/-- True exactly on error results. -/
def isErr {ε α : Type} : Except ε α → Bool
  | Except.error _ => true
  | Except.ok _ => false

/-- True exactly on `ForbiddenException` results. -/
def isForbiddenErr {α : Type} : Except ApiError α → Bool
  | Except.error (ApiError.forbidden _) => true
  | _ => false

/-- True exactly on `BadRequestException` results (the INVALID_STATE /
INVALID_TRANSITION signals). -/
def isBadRequestErr {α : Type} : Except ApiError α → Bool
  | Except.error (ApiError.badRequest _) => true
  | _ => false

/-- At most one item row per (order, product) pair. -/
def itemKeysPairwiseDistinct (items : List OrderItem) : Prop :=
  items.Pairwise (fun a b => ¬ (a.order_id = b.order_id ∧ a.product_id = b.product_id))

/-- Concrete fixtures used by witnesses and counterexamples. -/
def prodCoffee : Product :=
  { id := "p1", price := 4, is_available := true, stock_quantity := some 10 }

/-- A product whose stock column is null (the "unlimited" sentinel). -/
def prodNullStock : Product :=
  { id := "p2", price := 5, is_available := true, stock_quantity := none }

/-- A customer who owns the fixture orders. -/
def alice : AuthenticatedUser :=
  { id := "alice", email := "alice@example.com", role := UserRole.customer }

/-- A customer who owns nothing here. -/
def bob : AuthenticatedUser :=
  { id := "bob", email := "bob@example.com", role := UserRole.customer }

/-- A staff member (cashier). -/
def carol : AuthenticatedUser :=
  { id := "carol", email := "carol@example.com", role := UserRole.cashier }

/-- A pending order owned by alice. -/
def orderPending : Order :=
  { id := "o1", customer_id := "alice", status := OrderStatus.pending,
    total_amount := 0, notes := none, pickup_time := none, prepared_by := none }

/-- An order owned by alice that has left the pending window. -/
def orderPreparing : Order :=
  { id := "o2", customer_id := "alice", status := OrderStatus.preparing,
    total_amount := 0, notes := none, pickup_time := none, prepared_by := none }

/-- An item of `orderPending` whose unit price (3) was pinned before the
product's price moved to 4. -/
def itemExisting : OrderItem :=
  { id := "i1", order_id := "o1", product_id := "p1", quantity := 2,
    unit_price := 3, subtotal := 6, special_instructions := some "no sugar" }

/-- An item of `orderPending` whose product has a null stock column. -/
def itemNullStock : OrderItem :=
  { id := "i2", order_id := "o1", product_id := "p2", quantity := 1,
    unit_price := 5, subtotal := 5, special_instructions := none }

/-- The fixture store. -/
def db0 : DB :=
  { orders := [orderPending, orderPreparing]
    products := [prodCoffee, prodNullStock]
    items := [itemExisting, itemNullStock]
    nextId := 0 }

/-- Quantity-only patch used against the null-stock item. -/
def udtoQty2 : UpdateOrderItemDto := { quantity := some 2, special_instructions := none }

/-- Quantity-only patch used against the pinned-price item. -/
def udtoQty5 : UpdateOrderItemDto := { quantity := some 5, special_instructions := none }

/-- Adding three more of the already-present product, no instructions. -/
def dtoAddP1 : CreateOrderItemDto :=
  { product_id := "p1", quantity := 3, special_instructions := none }

theorem validateOrderAccess_none (db : DB) (orderId : String) (user : AuthenticatedUser)
    (rp : Bool) (h : findOrderById db orderId = none) :
    validateOrderAccess db orderId user rp =
      Except.error (ApiError.notFound "Order not found") := by
  simp only [validateOrderAccess, h]

theorem validateOrderAccess_forbidden (db : DB) (orderId : String)
    (user : AuthenticatedUser) (rp : Bool) (order : Order)
    (h : findOrderById db orderId = some order)
    (hrole : user.role = UserRole.customer) (hown : order.customer_id ≠ user.id) :
    validateOrderAccess db orderId user rp =
      Except.error (ApiError.forbidden "You can only access your own orders") := by
  simp only [validateOrderAccess, h]
  rw [if_pos ⟨hrole, hown⟩]

theorem validateOrderAccess_notPending (db : DB) (orderId : String)
    (user : AuthenticatedUser) (order : Order)
    (h : findOrderById db orderId = some order)
    (hacc : user.role ≠ UserRole.customer ∨ order.customer_id = user.id)
    (hnp : order.status ≠ OrderStatus.pending) :
    validateOrderAccess db orderId user true =
      Except.error (ApiError.badRequest "This action is only allowed for pending orders") := by
  simp only [validateOrderAccess, h]
  rw [if_neg, if_pos]
  · exact ⟨by trivial, hnp⟩
  · rintro ⟨hc1, hc2⟩
    rcases hacc with h1 | h1
    · exact h1 hc1
    · exact hc2 h1

theorem validateOrderAccess_passes (db : DB) (orderId : String)
    (user : AuthenticatedUser) (rp : Bool) (order : Order)
    (h : findOrderById db orderId = some order)
    (hacc : user.role ≠ UserRole.customer ∨ order.customer_id = user.id)
    (hpend : rp = false ∨ order.status = OrderStatus.pending) :
    validateOrderAccess db orderId user rp = Except.ok order := by
  simp only [validateOrderAccess, h]
  rw [if_neg, if_neg]
  · rintro ⟨hrp, hnp⟩
    rcases hpend with h1 | h1
    · rw [h1] at hrp
      exact Bool.false_ne_true hrp
    · exact hnp h1
  · rintro ⟨hc1, hc2⟩
    rcases hacc with h1 | h1
    · exact h1 hc1
    · exact hc2 h1

/-- C2: `validateOrderAccess(orderId, actor, requirePending)` fails
NOT_FOUND when no such order exists; fails FORBIDDEN when a customer actor
is not the owner; never rejects a cashier or admin for ownership; fails
INVALID_STATE (a `BadRequestException`, a signal distinct from FORBIDDEN)
when `requirePending` is set and the order is not pending; and otherwise
returns the order unchanged. -/
theorem c2_validateOrderAccess_spec (db : DB) (orderId : String)
    (user : AuthenticatedUser) (requirePending : Bool) :
    (findOrderById db orderId = none →
      validateOrderAccess db orderId user requirePending =
        Except.error (ApiError.notFound "Order not found")) ∧
    (∀ order, findOrderById db orderId = some order →
      user.role = UserRole.customer → order.customer_id ≠ user.id →
      validateOrderAccess db orderId user requirePending =
        Except.error (ApiError.forbidden "You can only access your own orders")) ∧
    (∀ order, findOrderById db orderId = some order →
      user.role = UserRole.cashier ∨ user.role = UserRole.admin →
      ∀ msg, validateOrderAccess db orderId user requirePending ≠
        Except.error (ApiError.forbidden msg)) ∧
    (∀ order, findOrderById db orderId = some order →
      (user.role ≠ UserRole.customer ∨ order.customer_id = user.id) →
      requirePending = true → order.status ≠ OrderStatus.pending →
      validateOrderAccess db orderId user requirePending =
        Except.error (ApiError.badRequest "This action is only allowed for pending orders")) ∧
    (∀ order, findOrderById db orderId = some order →
      (user.role ≠ UserRole.customer ∨ order.customer_id = user.id) →
      (requirePending = false ∨ order.status = OrderStatus.pending) →
      validateOrderAccess db orderId user requirePending = Except.ok order) ∧
    (∀ m1 m2 : String, ApiError.badRequest m1 ≠ ApiError.forbidden m2) := by
  refine ⟨?_, ?_, ?_, ?_, ?_, ?_⟩
  · intro h
    exact validateOrderAccess_none db orderId user requirePending h
  · intro order h hrole hown
    exact validateOrderAccess_forbidden db orderId user requirePending order h hrole hown
  · intro order h hstaff msg
    have hacc : user.role ≠ UserRole.customer := by
      rcases hstaff with h1 | h1 <;> rw [h1] <;> intro hc <;> exact UserRole.noConfusion hc
    simp only [validateOrderAccess, h]
    rw [if_neg (fun hc => hacc hc.1)]
    split
    · intro hcontra
      injection hcontra with h2
      injection h2
    · intro hcontra
      injection hcontra
  · intro order h hacc hrp hnp
    rw [hrp]
    exact validateOrderAccess_notPending db orderId user order h hacc hnp
  · intro order h hacc hpend
    exact validateOrderAccess_passes db orderId user requirePending order h hacc hpend
  · intro m1 m2 hcontra
    injection hcontra

/-- Witness for C2: the non-owner customer `bob` is rejected with FORBIDDEN
on alice's pending order. -/
theorem c2_validateOrderAccess_spec_witness :
    validateOrderAccess db0 "o1" bob true =
      Except.error (ApiError.forbidden "You can only access your own orders") :=
  (c2_validateOrderAccess_spec db0 "o1" bob true).2.1 orderPending (by decide) (by decide)
    (by decide)

/-- C4 amended: for an existing order and a customer actor, `updateStatus`
always fails, but the signal depends on the requested transition: the
transition-validity check runs before the staff-only check, so a customer
receives FORBIDDEN only when the requested transition is valid, and
INVALID_TRANSITION (a `BadRequestException`) when it is not. -/
theorem c4_updateStatus_customer_signal (db : DB) (id : String)
    (newStatus : OrderStatus) (user : AuthenticatedUser) (order : Order)
    (hfind : findOrderById db id = some order)
    (hrole : user.role = UserRole.customer) :
    ordersUpdateStatus db id newStatus user =
      (if isValidStatusTransition order.status newStatus then
        Except.error (ApiError.forbidden "Only staff can update order status")
      else
        Except.error (ApiError.badRequest "Invalid status transition")) := by
  simp only [ordersUpdateStatus, hfind]
  by_cases hvalid : isValidStatusTransition order.status newStatus = true
  · rw [if_pos hvalid, if_neg (by rw [hvalid]; intro hc; exact hc rfl), if_pos hrole]
  · rw [if_neg hvalid, if_pos (by intro hc; exact hvalid hc)]

/-- Witness for C4's amended theorem: `alice` (a customer) requesting the
legal transition `pending → preparing` on her own pending order is rejected
with FORBIDDEN. -/
theorem c4_updateStatus_customer_signal_witness :
    ordersUpdateStatus db0 "o1" OrderStatus.preparing alice =
      Except.error (ApiError.forbidden "Only staff can update order status") := by
  have h := c4_updateStatus_customer_signal db0 "o1" OrderStatus.preparing alice orderPending
    (by decide) rfl
  rw [if_pos (by decide)] at h
  exact h

/-- C4 counterexample: the claim says a customer's `updateStatus` fails with
FORBIDDEN for every requested status, but for an illegal transition
(`pending → pending` on an existing order) the code raises
INVALID_TRANSITION instead, because the transition check precedes the role
check. -/
theorem c4_customer_gets_invalid_transition_not_forbidden :
    ordersUpdateStatus db0 "o1" OrderStatus.pending alice =
      Except.error (ApiError.badRequest "Invalid status transition") ∧
    isForbiddenErr (ordersUpdateStatus db0 "o1" OrderStatus.pending alice) = false := by
  exact ⟨rfl, rfl⟩

/-- C6: `delete(id, actor)` fails NOT_FOUND when no such order exists; fails
FORBIDDEN when a customer actor is not the owner; fails INVALID_STATE when
the order is not pending, for every actor that reached that check (staff
included); and succeeds — removing exactly the order's row (and its items,
via the schema's cascade) — only when none of these failures occurs.  In
the `Except` embedding every error branch returns no store at all, so the
store is unchanged on every error. -/
theorem c6_ordersDelete_spec (db : DB) (id : String) (user : AuthenticatedUser) :
    (findOrderById db id = none →
      ordersDelete db id user = Except.error (ApiError.notFound "Order not found")) ∧
    (∀ order, findOrderById db id = some order →
      user.role = UserRole.customer → order.customer_id ≠ user.id →
      ordersDelete db id user =
        Except.error (ApiError.forbidden "You can only delete your own orders")) ∧
    (∀ order, findOrderById db id = some order →
      (user.role ≠ UserRole.customer ∨ order.customer_id = user.id) →
      order.status ≠ OrderStatus.pending →
      ordersDelete db id user =
        Except.error (ApiError.badRequest "Only pending orders can be deleted")) ∧
    (∀ order, findOrderById db id = some order →
      (user.role ≠ UserRole.customer ∨ order.customer_id = user.id) →
      order.status = OrderStatus.pending →
      ordersDelete db id user =
        Except.ok
          { db with
            orders := db.orders.filter (fun o => decide (o.id ≠ id))
            items := db.items.filter (fun it => decide (it.order_id ≠ id)) }) ∧
    (∀ db', ordersDelete db id user = Except.ok db' →
      ∃ order, findOrderById db id = some order ∧
        (user.role ≠ UserRole.customer ∨ order.customer_id = user.id) ∧
        order.status = OrderStatus.pending) := by
  refine ⟨?_, ?_, ?_, ?_, ?_⟩
  · intro h
    simp only [ordersDelete, h]
  · intro order h hrole hown
    simp only [ordersDelete, h]
    rw [if_pos ⟨hrole, hown⟩]
  · intro order h hacc hnp
    simp only [ordersDelete, h]
    rw [if_neg, if_pos hnp]
    rintro ⟨hc1, hc2⟩
    rcases hacc with h1 | h1
    · exact h1 hc1
    · exact hc2 h1
  · intro order h hacc hpend
    simp only [ordersDelete, h]
    rw [if_neg, if_neg (fun hc => hc hpend)]
    rintro ⟨hc1, hc2⟩
    rcases hacc with h1 | h1
    · exact h1 hc1
    · exact hc2 h1
  · intro db' hok
    cases hfind : findOrderById db id with
    | none =>
      simp only [ordersDelete, hfind] at hok
      exact Except.noConfusion hok
    | some order =>
      simp only [ordersDelete, hfind] at hok
      refine ⟨order, rfl, ?_⟩
      by_cases hown : user.role = UserRole.customer ∧ order.customer_id ≠ user.id
      · rw [if_pos hown] at hok
        exact absurd hok (fun hc => Except.noConfusion hc)
      · rw [if_neg hown] at hok
        by_cases hnp : order.status ≠ OrderStatus.pending
        · rw [if_pos hnp] at hok
          exact absurd hok (fun hc => Except.noConfusion hc)
        · push_neg at hnp
          refine ⟨?_, hnp⟩
          by_cases hrole : user.role = UserRole.customer
          · right
            by_contra hne
            exact hown ⟨hrole, hne⟩
          · exact Or.inl hrole

/-- Witness for C6: the cashier `carol` attempting to delete the
non-pending order `o2` fails with INVALID_STATE — the pending rule binds
staff too. -/
theorem c6_ordersDelete_spec_witness :
    ordersDelete db0 "o2" carol =
      Except.error (ApiError.badRequest "Only pending orders can be deleted") :=
  (c6_ordersDelete_spec db0 "o2" carol).2.2.1 orderPreparing (by decide)
    (Or.inl (by decide)) (by decide)

/-- C10 amended: the `requirePending` check has no role exemption, so for
every actor that passes the ownership check — every cashier or admin, and
the owning customer — the externally invoked item mutations `addItem`
(without the skip-validation flag), `updateItem` and `removeItem` fail with
INVALID_STATE whenever the parent order is not pending; a customer who is
not the owner fails earlier with FORBIDDEN.  Every such call returns an
error, so the items of a non-pending order are never changed through these
operations. -/
theorem c10_items_locked_when_not_pending (db : DB) (orderId itemId : String)
    (cdto : CreateOrderItemDto) (udto : UpdateOrderItemDto)
    (user : AuthenticatedUser) (order : Order)
    (hfind : findOrderById db orderId = some order)
    (hnp : order.status ≠ OrderStatus.pending)
    (hacc : user.role ≠ UserRole.customer ∨ order.customer_id = user.id) :
    orderItemsCreate db orderId cdto user false =
      Except.error (ApiError.badRequest "This action is only allowed for pending orders") ∧
    orderItemsUpdate db orderId itemId udto user =
      Except.error (ApiError.badRequest "This action is only allowed for pending orders") ∧
    orderItemsDelete db orderId itemId user =
      Except.error (ApiError.badRequest "This action is only allowed for pending orders") := by
  have hval := validateOrderAccess_notPending db orderId user order hfind hacc hnp
  refine ⟨?_, ?_, ?_⟩
  · simp [orderItemsCreate, hval]
  · simp [orderItemsUpdate, hval]
  · simp [orderItemsDelete, hval]

/-- Witness for C10's amended theorem: the cashier `carol` cannot update an
item of the non-pending order `o2`. -/
theorem c10_items_locked_when_not_pending_witness :
    orderItemsUpdate db0 "o2" "i1" udtoQty2 carol =
      Except.error (ApiError.badRequest "This action is only allowed for pending orders") :=
  (c10_items_locked_when_not_pending db0 "o2" "i1" dtoAddP1 udtoQty2 carol orderPreparing
    (by decide) (by decide) (Or.inl (by decide))).2.1

/-- C10 counterexample: the claim says these mutations fail with
INVALID_STATE for every actor whenever the order is not pending, but the
non-owner customer `bob` on the non-pending order `o2` is rejected with
FORBIDDEN (the ownership check runs first), not with a
`BadRequestException`. -/
theorem c10_nonowner_customer_forbidden_not_invalid_state :
    orderItemsUpdate db0 "o2" "i1" udtoQty2 bob =
      Except.error (ApiError.forbidden "You can only access your own orders") ∧
    isBadRequestErr (orderItemsUpdate db0 "o2" "i1" udtoQty2 bob) = false := by
  exact ⟨rfl, rfl⟩

/-- C5 (code bug): `updateItem` with quantity 2 on an item whose product has
a null stock column fails INVALID_STATE "Insufficient stock", although the
claim (and the create path of the very same service, whose check treats a
null stock as unlimited) says a null stock means unlimited and the update
should succeed.  The update path compares `product.stock_quantity < q`
directly, and JavaScript coerces null to 0.  For a finite, sufficient stock
the update succeeds and the subtotal is the new quantity times the pinned
unit price 3, not the product's current price 4. -/
theorem c5_updateItem_null_stock_rejected :
    orderItemsUpdate db0 "o1" "i2" udtoQty2 alice =
      Except.error (ApiError.badRequest "Insufficient stock") ∧
    stockInsufficientOnCreate prodNullStock.stock_quantity 2 = false ∧
    stockInsufficientOnUpdate prodNullStock.stock_quantity 2 = true ∧
    orderItemsUpdate db0 "o1" "i1" udtoQty5 alice =
      Except.ok
        ({ db0 with items := updateItemRow db0.items "i1" (fun it => applyItemUpdate it udtoQty5) },
         { itemExisting with
            quantity := 5
            subtotal := ((5 : Nat) : Rat) * itemExisting.unit_price }) ∧
    ((5 : Nat) : Rat) * itemExisting.unit_price = 15 := by
  refine ⟨rfl, rfl, rfl, rfl, by norm_num [itemExisting]⟩

/-- C8: whenever `register` succeeds — for every request body, including one
that supplies a `role` such as admin or cashier — the stored user's role is
`customer`, and both the token payload and the returned user object carry
role `customer`. -/
theorem c8_register_forces_customer_role (db : AuthDB) (dto : RegisterDto)
    (db' : AuthDB) (resp : AuthResponseDto)
    (hok : register db dto = Except.ok (db', resp)) :
    (∃ u : User, db'.users = db.users ++ [u] ∧ u.role = UserRole.customer ∧
      u.email = dto.email) ∧
    resp.user.role = UserRole.customer ∧
    resp.access_token.role = UserRole.customer := by
  unfold register at hok
  split at hok
  · exact Except.noConfusion hok
  · rw [Except.ok.injEq, Prod.mk.injEq] at hok
    obtain ⟨h1, h2⟩ := hok
    subst h1
    subst h2
    exact ⟨⟨_, rfl, rfl, rfl⟩, rfl, rfl⟩

/-- An empty users store. -/
def authDbEmpty : AuthDB := { users := [], nextUserId := 0 }

/-- A registration body that tries to claim the admin role. -/
def dtoRegEve : RegisterDto :=
  { email := "eve@example.com", password := "Sneaky1Pass", full_name := "Eve",
    phone := none, role := some UserRole.admin }

/-- Witness for C8: registering with `role: admin` still stores and returns
a customer. -/
theorem c8_register_forces_customer_role_witness :
    ((register authDbEmpty dtoRegEve).map
      (fun p => ((p.2.user.role, p.2.access_token.role)))) =
        Except.ok (UserRole.customer, UserRole.customer) := by
  cases hok : register authDbEmpty dtoRegEve with
  | error e =>
    exact absurd hok (by intro hc; exact Except.noConfusion (hc.symm.trans (by rfl)))
  | ok p =>
    have h := c8_register_forces_customer_role authDbEmpty dtoRegEve p.1 p.2 (by rw [hok])
    simp only [Except.map, h.2.1, h.2.2]

/-- C9: login with an email that is not registered, and login against a
registered active account with a wrong password, both fail with the same
`UnauthorizedException` carrying the identical "Invalid email or password"
message — the two results are equal, so a caller cannot tell the causes
apart. -/
theorem c9_login_indistinguishable (dbA dbB : AuthDB) (dtoA dtoB : LoginDto) (u : User)
    (h1 : findUserByEmail dbA dtoA.email = none)
    (h2 : findUserByEmail dbB dtoB.email = some u)
    (hactive : u.is_active = true)
    (hwrong : passwordMatches dtoB.password u.password_hash = false) :
    login dbA dtoA = Except.error (ApiError.unauthorized "Invalid email or password") ∧
    login dbB dtoB = Except.error (ApiError.unauthorized "Invalid email or password") ∧
    login dbA dtoA = login dbB dtoB := by
  have e1 : login dbA dtoA =
      Except.error (ApiError.unauthorized "Invalid email or password") := by
    simp only [login, h1]
  have e2 : login dbB dtoB =
      Except.error (ApiError.unauthorized "Invalid email or password") := by
    simp only [login, h2]
    rw [if_neg (fun hc => hc hactive),
      if_pos (by rw [hwrong]; exact Bool.false_ne_true)]
  exact ⟨e1, e2, e1.trans e2.symm⟩

/-- A registered active user whose password is "Right1Pass". -/
def bobUser : User :=
  { id := "u0", email := "bob@example.com", password_hash := hashPassword "Right1Pass",
    full_name := "Bob", phone := none, role := UserRole.customer, is_active := true }

/-- A users store holding only `bobUser`. -/
def authDbBob : AuthDB := { users := [bobUser], nextUserId := 1 }

/-- Login attempt for an unregistered email. -/
def dtoGhost : LoginDto := { email := "ghost@example.com", password := "Whatever1" }

/-- Login attempt for bob's email with the wrong password. -/
def dtoWrongPwd : LoginDto := { email := "bob@example.com", password := "Wrong1Pass" }

/-- Witness for C9: the two concrete failing logins return the identical
error. -/
theorem c9_login_indistinguishable_witness :
    login authDbEmpty dtoGhost =
      Except.error (ApiError.unauthorized "Invalid email or password") ∧
    login authDbBob dtoWrongPwd =
      Except.error (ApiError.unauthorized "Invalid email or password") ∧
    login authDbEmpty dtoGhost = login authDbBob dtoWrongPwd :=
  c9_login_indistinguishable authDbEmpty authDbBob dtoGhost dtoWrongPwd bobUser
    (by decide) (by decide) (by decide) (by decide)

theorem orderItemsCreateChecked_orders (db : DB) (oid : String) (dto : CreateOrderItemDto)
    (db' : DB) (item : OrderItem)
    (h : orderItemsCreateChecked db oid dto = Except.ok (db', item)) :
    db'.orders = db.orders := by
  unfold orderItemsCreateChecked at h
  split at h
  · exact Except.noConfusion h
  · split at h
    · exact Except.noConfusion h
    · split at h
      · exact Except.noConfusion h
      · split at h
        · rw [Except.ok.injEq, Prod.mk.injEq] at h
          rw [← h.1]
        · rw [Except.ok.injEq, Prod.mk.injEq] at h
          rw [← h.1]

theorem orderItemsCreate_orders (db : DB) (oid : String) (dto : CreateOrderItemDto)
    (user : AuthenticatedUser) (skip : Bool) (db' : DB) (item : OrderItem)
    (h : orderItemsCreate db oid dto user skip = Except.ok (db', item)) :
    db'.orders = db.orders := by
  unfold orderItemsCreate at h
  split at h
  · exact orderItemsCreateChecked_orders db oid dto db' item h
  · split at h
    · exact Except.noConfusion h
    · exact orderItemsCreateChecked_orders db oid dto db' item h

theorem addItemsSkippingFailures_orders (oid : String) (user : AuthenticatedUser) :
    ∀ (dtos : List CreateOrderItemDto) (db : DB),
      (addItemsSkippingFailures db oid user dtos).orders = db.orders := by
  intro dtos
  induction dtos with
  | nil => intro db; rfl
  | cons d rest ih =>
    intro db
    cases hc : orderItemsCreate db oid d user true with
    | ok p =>
      have hstep : addItemsSkippingFailures db oid user (d :: rest) =
          addItemsSkippingFailures p.1 oid user rest := by
        simp only [addItemsSkippingFailures, hc]
      rw [hstep, ih p.1, orderItemsCreate_orders db oid d user true p.1 p.2]
      rw [← hc]
    | error e =>
      have hstep : addItemsSkippingFailures db oid user (d :: rest) =
          addItemsSkippingFailures db oid user rest := by
        simp only [addItemsSkippingFailures, hc]
      rw [hstep, ih db]

theorem addItemsSkippingFailures_append (oid : String) (user : AuthenticatedUser) :
    ∀ (xs ys : List CreateOrderItemDto) (db : DB),
      addItemsSkippingFailures db oid user (xs ++ ys) =
        addItemsSkippingFailures (addItemsSkippingFailures db oid user xs) oid user ys := by
  intro xs
  induction xs with
  | nil => intro ys db; rfl
  | cons d rest ih =>
    intro ys db
    cases hc : orderItemsCreate db oid d user true with
    | ok p =>
      have h1 : addItemsSkippingFailures db oid user ((d :: rest) ++ ys) =
          addItemsSkippingFailures p.1 oid user (rest ++ ys) := by
        simp only [List.cons_append, addItemsSkippingFailures, hc]
        rfl
      have h2 : addItemsSkippingFailures db oid user (d :: rest) =
          addItemsSkippingFailures p.1 oid user rest := by
        simp only [addItemsSkippingFailures, hc]
      rw [h1, h2, ih ys p.1]
    | error e =>
      have h1 : addItemsSkippingFailures db oid user ((d :: rest) ++ ys) =
          addItemsSkippingFailures db oid user (rest ++ ys) := by
        simp only [List.cons_append, addItemsSkippingFailures, hc]
        rfl
      have h2 : addItemsSkippingFailures db oid user (d :: rest) =
          addItemsSkippingFailures db oid user rest := by
        simp only [addItemsSkippingFailures, hc]
      rw [h1, h2, ih ys db]

theorem addItemsSkippingFailures_error_head (db : DB) (oid : String)
    (user : AuthenticatedUser) (bad : CreateOrderItemDto) (ys : List CreateOrderItemDto)
    (h : isErr (orderItemsCreate db oid bad user true) = true) :
    addItemsSkippingFailures db oid user (bad :: ys) =
      addItemsSkippingFailures db oid user ys := by
  cases hc : orderItemsCreate db oid bad user true with
  | ok p =>
    rw [hc] at h
    exact Bool.noConfusion h
  | error e =>
    simp only [addItemsSkippingFailures, hc]

/-- C7: `create` always returns the inserted order row with
`status = pending` and `total_amount = 0`, and that row is present in the
resulting store (the item loop never touches the orders table).  The item
loop adds each supplied item with validation bypassed, and a failing item is
caught and skipped while every remaining item is still processed: creating
with an item list containing a failing entry produces exactly the same
result as creating with that entry removed. -/
theorem c7_ordersCreate_skips_failed_items (db : DB) (dto dtoPruned : CreateOrderDto)
    (user : AuthenticatedUser) (xs ys : List CreateOrderItemDto)
    (bad : CreateOrderItemDto)
    (hitems : dto.items = xs ++ bad :: ys)
    (hpruned : dtoPruned = { dto with items := xs ++ ys })
    (hbad : isErr (orderItemsCreate
        (addItemsSkippingFailures (afterOrderInsert db dto user) (freshId db) user xs)
        (freshId db) bad user true) = true) :
    (ordersCreate db dto user).2.status = OrderStatus.pending ∧
    (ordersCreate db dto user).2.total_amount = 0 ∧
    (ordersCreate db dto user).2 ∈ (ordersCreate db dto user).1.orders ∧
    ordersCreate db dto user = ordersCreate db dtoPruned user := by
  subst hpruned
  refine ⟨rfl, rfl, ?_, ?_⟩
  · have horders : (ordersCreate db dto user).1.orders =
        db.orders ++ [newOrderRow db dto user] := by
      show (addItemsSkippingFailures (afterOrderInsert db dto user)
        (freshId db) user dto.items).orders = _
      rw [addItemsSkippingFailures_orders]
      rfl
    rw [horders]
    exact List.mem_append_right _ (List.mem_singleton_self _)
  · have key : addItemsSkippingFailures (afterOrderInsert db dto user)
        (freshId db) user (xs ++ bad :: ys) =
        addItemsSkippingFailures (afterOrderInsert db dto user)
          (freshId db) user (xs ++ ys) := by
      rw [addItemsSkippingFailures_append, addItemsSkippingFailures_append,
        addItemsSkippingFailures_error_head _ _ _ _ _ hbad]
    show (addItemsSkippingFailures (afterOrderInsert db dto user)
          (freshId db) user dto.items, newOrderRow db dto user) =
        (addItemsSkippingFailures (afterOrderInsert db dto user)
          (freshId db) user (xs ++ ys), newOrderRow db dto user)
    rw [hitems, key]

/-- A store holding just the catalog product `prodCoffee`. -/
def dbCatalog : DB := { orders := [], products := [prodCoffee], items := [], nextId := 0 }

/-- A valid item body for `prodCoffee`. -/
def dtoGoodItem : CreateOrderItemDto :=
  { product_id := "p1", quantity := 2, special_instructions := none }

/-- An item body naming a nonexistent product. -/
def dtoBadItem : CreateOrderItemDto :=
  { product_id := "missing", quantity := 1, special_instructions := none }

/-- Create body with one valid and one failing item. -/
def dtoOrderMixed : CreateOrderDto :=
  { notes := none, pickup_time := none, items := [dtoGoodItem, dtoBadItem] }

/-- Create body with only the valid item. -/
def dtoOrderGoodOnly : CreateOrderDto :=
  { notes := none, pickup_time := none, items := [dtoGoodItem] }

/-- Witness for C7: creating with `[good, badProduct]` returns a pending,
zero-total order and the very same result as creating with `[good]` — the
bad item is skipped, the good one survives. -/
theorem c7_ordersCreate_skips_failed_items_witness :
    (ordersCreate dbCatalog dtoOrderMixed alice).2.status = OrderStatus.pending ∧
    (ordersCreate dbCatalog dtoOrderMixed alice).2.total_amount = 0 ∧
    ordersCreate dbCatalog dtoOrderMixed alice = ordersCreate dbCatalog dtoOrderGoodOnly alice := by
  have h := c7_ordersCreate_skips_failed_items dbCatalog dtoOrderMixed dtoOrderGoodOnly alice
    [dtoGoodItem] [] dtoBadItem rfl rfl (by decide)
  exact ⟨h.1, h.2.1, h.2.2.2⟩

theorem eq_of_mem_of_pairwise_ne_id {l : List OrderItem}
    (h : l.Pairwise (fun a b => a.id ≠ b.id)) :
    ∀ {a b : OrderItem}, a ∈ l → b ∈ l → a.id = b.id → a = b := by
  induction l with
  | nil =>
    intro a b ha _ _
    exact absurd ha (List.not_mem_nil a)
  | cons x xs ih =>
    intro a b ha hb hid
    rw [List.pairwise_cons] at h
    rcases List.mem_cons.mp ha with rfl | ha'
    · rcases List.mem_cons.mp hb with rfl | hb'
      · rfl
      · exact absurd hid (h.1 b hb')
    · rcases List.mem_cons.mp hb with rfl | hb'
      · exact absurd hid.symm (h.1 a ha')
      · exact ih h.2 ha' hb' hid

/-- C3: when `addItem` succeeds it preserves the at-most-one-row-per
(order, product) invariant (given distinct row ids, the table's primary
key); and when the product was already present in the order, no new row is
created (the item count is unchanged), the returned item's quantity is the
existing quantity plus the requested one, its unit price is the existing
row's pinned unit price (the product's current price is not re-read), its
subtotal is the merged quantity times that pinned price, and its special
instructions are replaced only by a present nonempty request value and
retained otherwise. -/
theorem c3_addItem_merges_duplicates (db : DB) (orderId : String)
    (dto : CreateOrderItemDto) (user : AuthenticatedUser) (skipValidation : Bool)
    (db' : DB) (item : OrderItem)
    (hok : orderItemsCreate db orderId dto user skipValidation = Except.ok (db', item)) :
    (db.items.Pairwise (fun a b => a.id ≠ b.id) →
      itemKeysPairwiseDistinct db.items → itemKeysPairwiseDistinct db'.items) ∧
    (∀ existing, findItemByOrderAndProduct db.items orderId dto.product_id = some existing →
      db'.items.length = db.items.length ∧
      item.quantity = existing.quantity + dto.quantity ∧
      item.unit_price = existing.unit_price ∧
      item.subtotal = ((existing.quantity + dto.quantity : Nat) : Rat) * existing.unit_price ∧
      ((dto.special_instructions = none ∨ dto.special_instructions = some "") →
        item.special_instructions = existing.special_instructions) ∧
      (∀ s, dto.special_instructions = some s → s ≠ "" →
        item.special_instructions = some s)) := by
  have hchecked : orderItemsCreateChecked db orderId dto = Except.ok (db', item) := by
    unfold orderItemsCreate at hok
    split at hok
    · exact hok
    · split at hok
      · exact Except.noConfusion hok
      · exact hok
  unfold orderItemsCreateChecked at hchecked
  cases hp : productsFindById db dto.product_id with
  | error e =>
    simp only [hp] at hchecked
    exact Except.noConfusion hchecked
  | ok product =>
    simp only [hp] at hchecked
    split at hchecked
    · exact Except.noConfusion hchecked
    split at hchecked
    · exact Except.noConfusion hchecked
    split at hchecked
    next existingItem heq =>
      rw [Except.ok.injEq, Prod.mk.injEq] at hchecked
      obtain ⟨hdb, hitem⟩ := hchecked
      subst hdb
      subst hitem
      constructor
      · intro hids hkeys
        unfold itemKeysPairwiseDistinct at hkeys ⊢
        simp only [updateItemRow]
        rw [List.pairwise_map]
        have hmem : existingItem ∈ db.items := by
          unfold findItemByOrderAndProduct at heq
          exact List.mem_of_find?_eq_some heq
        refine List.Pairwise.imp_of_mem ?_ (hids.and hkeys)
        intro a b ha hb hab
        obtain ⟨hidne, hkne⟩ := hab
        by_cases hA : a.id = existingItem.id
        · have haE : a = existingItem := eq_of_mem_of_pairwise_ne_id hids ha hmem hA
          have hB : ¬ b.id = existingItem.id := by
            intro hB'
            have hbE : b = existingItem := eq_of_mem_of_pairwise_ne_id hids hb hmem hB'
            apply hidne
            rw [haE, hbE]
          rw [if_pos hA, if_neg hB]
          intro hc
          apply hkne
          rw [haE]
          exact ⟨hc.1, hc.2⟩
        · by_cases hB : b.id = existingItem.id
          · have hbE : b = existingItem := eq_of_mem_of_pairwise_ne_id hids hb hmem hB
            rw [if_neg hA, if_pos hB]
            intro hc
            apply hkne
            rw [hbE]
            exact ⟨hc.1, hc.2⟩
          · rw [if_neg hA, if_neg hB]
            exact hkne
      · intro existing hfind2
        have hEq : existing = existingItem := by
          rw [heq] at hfind2
          injection hfind2 with h2
          exact h2.symm
        subst hEq
        refine ⟨?_, rfl, rfl, rfl, ?_, ?_⟩
        · simp only [updateItemRow, List.length_map]
        · rintro (hnone | hempty)
          · show jsStringOr dto.special_instructions existing.special_instructions = _
            rw [hnone]
            rfl
          · show jsStringOr dto.special_instructions existing.special_instructions = _
            rw [hempty]
            rfl
        · intro s hs hne
          show jsStringOr dto.special_instructions existing.special_instructions = some s
          rw [hs]
          simp only [jsStringOr]
          rw [if_neg hne]
    next hnone =>
      rw [Except.ok.injEq, Prod.mk.injEq] at hchecked
      obtain ⟨hdb, hitem⟩ := hchecked
      subst hdb
      subst hitem
      constructor
      · intro hids hkeys
        unfold itemKeysPairwiseDistinct at hkeys ⊢
        apply (List.pairwise_append).mpr
        refine ⟨hkeys, List.pairwise_singleton _ _, ?_⟩
        intro a ha b hb
        rw [List.mem_singleton] at hb
        subst hb
        intro hc
        unfold findItemByOrderAndProduct at hnone
        have hnot := List.find?_eq_none.mp hnone a ha
        apply hnot
        rw [decide_eq_true_eq]
        exact ⟨hc.1, hc.2⟩
      · intro existing hfind2
        rw [hnone] at hfind2
        exact Option.noConfusion hfind2

/-- The store after the witness merge below. -/
def db0merged : DB :=
  { db0 with items := updateItemRow db0.items "i1" (fun _ => mergeItem itemExisting dtoAddP1) }

/-- Witness for C3: adding 3 more units of product `p1`, already present on
order `o1` with quantity 2 at pinned price 3, keeps the row count at 2 and
merges to quantity 5 at the pinned unit price with the old instructions
retained. -/
theorem c3_addItem_merges_duplicates_witness :
    db0merged.items.length = db0.items.length ∧
    (mergeItem itemExisting dtoAddP1).quantity = itemExisting.quantity + dtoAddP1.quantity ∧
    (mergeItem itemExisting dtoAddP1).unit_price = itemExisting.unit_price ∧
    (mergeItem itemExisting dtoAddP1).special_instructions = itemExisting.special_instructions := by
  have h := c3_addItem_merges_duplicates db0 "o1" dtoAddP1 alice false db0merged
    (mergeItem itemExisting dtoAddP1) rfl
  have h2 := h.2 itemExisting rfl
  exact ⟨h2.1, h2.2.1, h2.2.2.1, h2.2.2.2.2.1 (Or.inl rfl)⟩

end SetAside
